import Mathlib

/-!
Shallow embedding of the VideoGen render-job lifecycle coordinator
(src/routes/projects.py and src/services/render_engine.py).

The persisted project record is `ProjectRecord` (from models/project.py);
every Mongo `update_one {project_id} $set {...}` in the coordinator is a
function `ProjectRecord → ProjectRecord`.  Network behaviour is abstracted
by per-attempt outcome oracles (`PostAttempt`, `HeadAttempt`): a call to
`_make_request` is determined by the sequence of outcomes its attempts see.
Python dicts of JSON-ish values are association lists over `PVal`.
-/

namespace VideoGen

/-- `ProjectStatus` enum from models/project.py. -/
inductive ProjectStatus
  | draft
  | processing
  | completed
  | failed
deriving DecidableEq

/-- A JSON-ish parameter value: string or number (Python floats/ints as ℚ). -/
inductive PVal
  | s (v : String)
  | n (v : ℚ)
deriving DecidableEq

/-- `dict.get(key, default)` on an association list. -/
def pget (ps : List (String × PVal)) (k : String) (d : PVal) : PVal :=
  match ps.lookup k with
  | some v => v
  | none => d

/-- The persisted project record (the fields the coordinator reads/writes),
from models/project.py. `user_id` is `Option` so that the showcase route's
`project.pop("user_id", None)` can be expressed. Timestamps are abstract
instants (`Nat`). -/
structure ProjectRecord where
  project_id : String
  user_id : Option String
  template_id : String
  parameters : List (String × PVal)
  status : ProjectStatus
  video_url : Option String
  thumbnail_url : Option String
  duration_seconds : Option ℚ
  file_size_mb : Option ℚ
  render_started_at : Option Nat
  render_completed_at : Option Nat
  created_at : Nat
  is_public : Bool
deriving DecidableEq

/-- `RenderEngineClient._transform_parameters` (src/services/render_engine.py):
maps a template id and the project's parameter dict to the render engine's
payload dict. A pure function of its inputs. -/
def transform_parameters (template_id : String) (parameters : List (String × PVal)) :
    List (String × PVal) :=
  if template_id = "text-reveal" then
    [("text", pget parameters "text" (.s "Default Text")),
     ("speed", pget parameters "speed" (.n 0.1)),
     ("font_name", pget parameters "font" (.s "Arial")),
     ("font_size", pget parameters "font_size" (.n 48)),
     ("font_color", pget parameters "font_color" (.s "#FF0000")),
     ("bg_color", pget parameters "background_color" (.s "#FFFFFF")),
     ("duration", pget parameters "duration" (.n 5.0)),
     ("resolution", .s "1920x1080")]
  else if template_id = "tmpl-newspaper" then
    [("text", pget parameters "headline" (.s "Breaking News")),
     ("speed", .n 0.1), ("font_name", .s "Arial"), ("font_size", .n 24),
     ("font_color", pget parameters "theme_color" (.s "#FF0000")),
     ("bg_color", .s "#FFFFFF"), ("duration", .n 30.0),
     ("resolution", .s "1920x1080")]
  else if template_id = "tmpl-social-story" then
    [("text", pget parameters "text" (.s "Social Story")),
     ("speed", .n 0.15), ("font_name", .s "Arial"), ("font_size", .n 20),
     ("font_color", .s "#FFFFFF"),
     ("bg_color", pget parameters "overlay_color" (.s "#000000")),
     ("duration", .n 15.0),
     ("resolution", .s "1080x1920")]
  else if template_id = "tmpl-corporate-intro" then
    [("text", pget parameters "company_name" (.s "Company")),
     ("speed", .n 0.08), ("font_name", .s "Arial"), ("font_size", .n 28),
     ("font_color", pget parameters "primary_color" (.s "#0066CC")),
     ("bg_color", pget parameters "secondary_color" (.s "#FFFFFF")),
     ("duration", .n 20.0),
     ("resolution", .s "1920x1080")]
  else if template_id = "tmpl-wedding-announcement" then
    [("text", .s (((pget parameters "bride_name" (.s "")).casesOn (fun v => v) (fun v => toString v)) ++ " & " ++ ((pget parameters "groom_name" (.s "")).casesOn (fun v => v) (fun v => toString v)))),
     ("speed", .n 0.12), ("font_name", .s "Arial"), ("font_size", .n 26),
     ("font_color", pget parameters "theme_color" (.s "#FFD700")),
     ("bg_color", .s "#FFFFFF"), ("duration", .n 25.0),
     ("resolution", .s "1920x1080")]
  else
    [("text", .s "Default Text"), ("speed", .n 0.1), ("font_name", .s "Arial"),
     ("font_size", .n 24), ("font_color", .s "#000000"),
     ("bg_color", .s "#FFFFFF"), ("duration", .n 30.0),
     ("resolution", .s "1920x1080")]

/-- The template ids `_transform_parameters` treats specially. -/
def knownTemplateIds : List String :=
  ["text-reveal", "tmpl-newspaper", "tmpl-social-story",
   "tmpl-corporate-intro", "tmpl-wedding-announcement"]

/-- The eight keys every render payload carries. -/
def payloadKeys : List String :=
  ["text", "speed", "font_name", "font_size", "font_color", "bg_color",
   "duration", "resolution"]

/-- The fallback payload for unknown template ids (the final `else`). -/
def fallback_payload : List (String × PVal) :=
  [("text", .s "Default Text"), ("speed", .n 0.1), ("font_name", .s "Arial"),
   ("font_size", .n 24), ("font_color", .s "#000000"),
   ("bg_color", .s "#FFFFFF"), ("duration", .n 30.0),
   ("resolution", .s "1920x1080")]

/-! ## Render client (`RenderEngineClient`, src/services/render_engine.py) -/

/-- `RenderEngineClient.max_retries`. -/
def max_retries : Nat := 3

/-- `RenderEngineClient.retry_delay` (seconds). -/
def retry_delay : Nat := 5

/-- `config("RENDER_ENGINE_URL", default=...)`. -/
def render_engine_base_url : String := "http://localhost:8001"

/-- The JSON body of a `202 Accepted` submit response. -/
structure EngineResp where
  filename : Option String
  download_url : Option String
  message : Option String
deriving DecidableEq

/-- What one POST attempt inside `_make_request` observes on the wire:
a 202 with a JSON body; an HTTP status ≥ 400 (the code raises); a status
that is neither 202 nor ≥ 400 (the code falls through the loop body);
or a transport-level timeout (`asyncio.TimeoutError`). -/
inductive PostAttempt
  | accepted (resp : EngineResp)
  | rejected (code : Nat) (body : String)
  | otherStatus (code : Nat)
  | transportTimeout

/-- Result of one `_make_request` call: the returned value (`.ok none` models
the loop falling off the end and returning Python `None`) or the raised
message, with the number of attempts consumed and the seconds slept in
`retry_delay` waits. -/
structure PostCallResult where
  result : Except String (Option EngineResp)
  attemptsUsed : Nat
  totalDelay : Nat

/-- The `for attempt in range(self.max_retries)` loop of `_make_request`
for POST, recursing on the remaining number of attempts (`fuel`); `fuel = 0`
inside an iteration means `attempt == self.max_retries - 1`, where both
`except` handlers re-raise instead of sleeping and retrying.  A raised
`Exception` from a ≥ 400 response is caught by the generic
`except Exception` handler, which also retries. -/
def makeRequestPostAux (attempts : Nat → PostAttempt) (attempt : Nat) :
    Nat → PostCallResult
  | 0 => { result := .ok none, attemptsUsed := 0, totalDelay := 0 }
  | fuel + 1 =>
    match attempts attempt with
    | .accepted resp =>
        { result := .ok (some resp), attemptsUsed := 1, totalDelay := 0 }
    | .rejected code body =>
        if fuel = 0 then
          { result := .error ("Render engine error " ++ toString code ++ ": " ++ body),
            attemptsUsed := 1, totalDelay := 0 }
        else
          let rest := makeRequestPostAux attempts (attempt + 1) fuel
          { rest with attemptsUsed := rest.attemptsUsed + 1,
                      totalDelay := rest.totalDelay + retry_delay }
    | .otherStatus _ =>
        let rest := makeRequestPostAux attempts (attempt + 1) fuel
        { rest with attemptsUsed := rest.attemptsUsed + 1 }
    | .transportTimeout =>
        if fuel = 0 then
          { result := .error "Render engine request timeout after all retries",
            attemptsUsed := 1, totalDelay := 0 }
        else
          let rest := makeRequestPostAux attempts (attempt + 1) fuel
          { rest with attemptsUsed := rest.attemptsUsed + 1,
                      totalDelay := rest.totalDelay + retry_delay }

/-- `RenderEngineClient._make_request("POST", ...)`. -/
def make_request_post (attempts : Nat → PostAttempt) : PostCallResult :=
  makeRequestPostAux attempts 0 max_retries

/-- What one HEAD attempt observes: 200, 404, another HTTP status (raises),
or a transport timeout. -/
inductive HeadAttempt
  | status200
  | status404
  | badStatus (code : Nat)
  | transportTimeout

/-- The status dict returned by the client's status-check path. -/
structure ClientStatus where
  status : String
  message : Option String
deriving DecidableEq

/-- Result of one `_make_request("HEAD", ...)` call.  Every HEAD branch
either returns or raises, so the value side is never `None`. -/
structure HeadCallResult where
  result : Except String ClientStatus
  attemptsUsed : Nat
  totalDelay : Nat

/-- The `_make_request` loop for HEAD (same retry structure as POST). -/
def makeRequestHeadAux (attempts : Nat → HeadAttempt) (attempt : Nat) :
    Nat → HeadCallResult
  | 0 => { result := .error "loop exhausted", attemptsUsed := 0, totalDelay := 0 }
  | fuel + 1 =>
    match attempts attempt with
    | .status200 =>
        { result := .ok { status := "ready", message := none },
          attemptsUsed := 1, totalDelay := 0 }
    | .status404 =>
        { result := .ok { status := "not_found", message := none },
          attemptsUsed := 1, totalDelay := 0 }
    | .badStatus code =>
        if fuel = 0 then
          { result := .error ("Render engine status check failed with status " ++ toString code),
            attemptsUsed := 1, totalDelay := 0 }
        else
          let rest := makeRequestHeadAux attempts (attempt + 1) fuel
          { rest with attemptsUsed := rest.attemptsUsed + 1,
                      totalDelay := rest.totalDelay + retry_delay }
    | .transportTimeout =>
        if fuel = 0 then
          { result := .error "Render engine request timeout after all retries",
            attemptsUsed := 1, totalDelay := 0 }
        else
          let rest := makeRequestHeadAux attempts (attempt + 1) fuel
          { rest with attemptsUsed := rest.attemptsUsed + 1,
                      totalDelay := rest.totalDelay + retry_delay }

/-- `RenderEngineClient._make_request("HEAD", ...)`. -/
def make_request_head (attempts : Nat → HeadAttempt) : HeadCallResult :=
  makeRequestHeadAux attempts 0 max_retries

/-- `RenderEngineClient.check_render_status`: returns the `_make_request`
response, catching any raised exception and turning it into a
`{"status": "error", "message": ...}` dict. -/
def check_render_status (r : Except String ClientStatus) : ClientStatus :=
  match r with
  | .ok s => s
  | .error e => { status := "error", message := some e }

/-- Python `str.replace`: replace every occurrence of `pat` by `rep`,
scanning left to right.  Fuel-based so it evaluates by kernel reduction;
the fuel is the input length, and every step consumes at least one
character when `pat` is non-empty. -/
def replaceCharsAux (pat rep : List Char) : Nat → List Char → List Char
  | 0, l => l
  | _, [] => []
  | fuel + 1, c :: rest =>
    if pat.isPrefixOf (c :: rest) then
      rep ++ replaceCharsAux pat rep fuel ((c :: rest).drop pat.length)
    else
      c :: replaceCharsAux pat rep fuel rest

/-- `render_job_id.replace(".mp4", ".jpg")` and friends. -/
def pyReplace (s pat rep : String) : String :=
  String.mk (replaceCharsAux pat.data rep.data s.data.length s.data)

/-- Result dict of `RenderEngine.check_render_completion`. -/
structure CompletionResult where
  completed : Bool
  success : Bool
  video_url : Option String
  thumbnail_url : Option String
  duration_seconds : Option ℚ
  file_size_mb : Option ℚ
deriving DecidableEq

/-- The body of `RenderEngine.check_render_completion` applied to the
status dict produced by `check_render_status`. -/
def check_render_completion (render_job_id : String) (s : ClientStatus) :
    CompletionResult :=
  if s.status = "ready" then
    { completed := true, success := true,
      video_url := some (render_engine_base_url ++ "/videos/" ++ render_job_id),
      thumbnail_url := some (render_engine_base_url ++ "/videos/" ++
        (pyReplace render_job_id ".mp4" ".jpg")),
      duration_seconds := some 30, file_size_mb := some 2.5 }
  else
    { completed := false, success := false, video_url := none,
      thumbnail_url := none, duration_seconds := none, file_size_mb := none }

/-- `RenderEngine.check_render_completion` end to end: one poll = one client
HEAD call (with retries) fed through `check_render_status`. -/
def engine_check_render_completion (render_job_id : String)
    (attempts : Nat → HeadAttempt) : CompletionResult :=
  check_render_completion render_job_id
    (check_render_status (make_request_head attempts).result)

/-- `RenderEngineClient.start_render_job`: builds the payload with
`_transform_parameters`, POSTs it, and wraps any raised error message. -/
def client_start_render_job (template_name : String)
    (parameters : List (String × PVal)) (attempts : Nat → PostAttempt) :
    Except String (Option EngineResp) :=
  let _render_parameters := transform_parameters template_name parameters
  match (make_request_post attempts).result with
  | .ok v => .ok v
  | .error e => .error ("Render engine communication failed: " ++ e)

/-- The dict `RenderEngine.start_render_job` returns. -/
structure SubmitResult where
  success : Bool
  render_job_id : Option String
  download_url : Option String
  message : Option String
  error : Option String
deriving DecidableEq

/-- `RenderEngine.start_render_job`: catches every failure of the client
call and reports it as `success: False`; a truthy response yields
`success: True` with the job id defaulting to `"{project_id}.mp4"`. -/
def engine_start_render_job (project_id : String) (template_id : String)
    (parameters : List (String × PVal)) (attempts : Nat → PostAttempt) :
    SubmitResult :=
  match client_start_render_job template_id parameters attempts with
  | .ok (some resp) =>
      { success := true,
        render_job_id := some (resp.filename.getD (project_id ++ ".mp4")),
        download_url := resp.download_url,
        message := some (resp.message.getD "Render started"),
        error := none }
  | .ok none =>
      { success := false, render_job_id := none, download_url := none,
        message := none, error := some "Failed to start render job" }
  | .error e =>
      { success := false, render_job_id := none, download_url := none,
        message := none, error := some e }

/-! ## Render coordinator (src/routes/projects.py) -/

/-- `max_polls = 60` in `process_real_render_job`. -/
def max_polls : Nat := 60

/-- `poll_interval = 10` seconds in `process_real_render_job`. -/
def poll_interval : Nat := 10

/-- The `$set` write that enters `processing`: sets status and
`render_started_at` only (touches no other field). -/
def setProcessing (t : Nat) (p : ProjectRecord) : ProjectRecord :=
  { p with status := .processing, render_started_at := some t }

/-- The `$set` write on a failure (poll failure, timeout, submit failure,
exception handler, failure callback): status and `render_completed_at` only. -/
def setFailed (t : Nat) (p : ProjectRecord) : ProjectRecord :=
  { p with status := .failed, render_completed_at := some t }

/-- The `$set` write on poll-detected completion: status, result payload
fields and `render_completed_at`. -/
def setCompletedFromPoll (r : CompletionResult) (t : Nat) (p : ProjectRecord) :
    ProjectRecord :=
  { p with
    status := .completed,
    video_url := r.video_url,
    thumbnail_url := r.thumbnail_url,
    duration_seconds := r.duration_seconds,
    file_size_mb := r.file_size_mb,
    render_completed_at := some t }

/-- Outcome of the background render sequence: the final persisted record,
how many completion checks were performed, and the seconds spent in
`asyncio.sleep(poll_interval)` waits. -/
structure PollOutcome where
  record : ProjectRecord
  pollsPerformed : Nat
  sleepSeconds : Nat

/-- The `for attempt in range(max_polls)` loop of `process_real_render_job`,
recursing on the remaining number of iterations; exhaustion writes the
timeout failure.  Each non-terminal check is followed by one
`asyncio.sleep(poll_interval)` (including the last one before exhaustion). -/
def pollLoop (poll : Nat → CompletionResult) (tF : Nat) (p : ProjectRecord) :
    Nat → Nat → PollOutcome
  | _, 0 => { record := setFailed tF p, pollsPerformed := 0, sleepSeconds := 0 }
  | attempt, fuel + 1 =>
    let r := poll attempt
    if r.completed then
      if r.success then
        { record := setCompletedFromPoll r tF p, pollsPerformed := 1, sleepSeconds := 0 }
      else
        { record := setFailed tF p, pollsPerformed := 1, sleepSeconds := 0 }
    else
      let rest := pollLoop poll tF p (attempt + 1) fuel
      { rest with pollsPerformed := rest.pollsPerformed + 1,
                  sleepSeconds := rest.sleepSeconds + poll_interval }

/-- The `try` body of `process_real_render_job`: write `processing`, look the
project up (`found = false` raises "Project not found"), submit, then either
poll or write the submit failure.  An `.error` carries the record as already
mutated at the raise point. -/
def renderJobBody (project_id : String) (found : Bool)
    (submitAttempts : Nat → PostAttempt)
    (pollAttempts : Nat → Nat → HeadAttempt) (tS tF : Nat)
    (p : ProjectRecord) : Except (ProjectRecord × String) PollOutcome :=
  let p1 := setProcessing tS p
  if found then
    let render_result :=
      engine_start_render_job project_id p.template_id p.parameters submitAttempts
    if render_result.success then
      let render_job_id := render_result.render_job_id.getD ""
      .ok (pollLoop
            (fun i => engine_check_render_completion render_job_id (pollAttempts i))
            tF p1 0 max_polls)
    else
      .ok { record := setFailed tF p1, pollsPerformed := 0, sleepSeconds := 0 }
  else
    .error (p1, "Project not found")

/-- `process_real_render_job`: the body wrapped in the top-level
`try/except` that converts any raised failure into a terminal `failed`
write on the record as it stood at the raise point. -/
def process_real_render_job (project_id : String) (found : Bool)
    (submitAttempts : Nat → PostAttempt)
    (pollAttempts : Nat → Nat → HeadAttempt) (tS tF : Nat)
    (p : ProjectRecord) : PollOutcome :=
  match renderJobBody project_id found submitAttempts pollAttempts tS tF p with
  | .ok r => r
  | .error (s, _) =>
      { record := setFailed tF s, pollsPerformed := 0, sleepSeconds := 0 }

/-! ## Callback receiver (`render_callback`, src/routes/projects.py) -/

/-- The JSON body the render engine POSTs to `/render-callback/{project_id}`. -/
structure CallbackData where
  success : Bool
  video_url : Option String
  thumbnail_url : Option String
  duration_seconds : Option ℚ
  file_size_mb : Option ℚ
deriving DecidableEq

/-- `render_callback`: branches only on `callback_data.get("success")` and
applies the corresponding `$set` write — there is no read of the current
status before writing. -/
def render_callback (cb : CallbackData) (t : Nat) (p : ProjectRecord) :
    ProjectRecord :=
  if cb.success then
    { p with
      status := .completed,
      video_url := cb.video_url,
      thumbnail_url := cb.thumbnail_url,
      duration_seconds := cb.duration_seconds,
      file_size_mb := cb.file_size_mb,
      render_completed_at := some t }
  else
    setFailed t p

/-! ## Render-start handler (`render_project`, src/routes/projects.py) -/

/-- A task handed to `background_tasks.add_task`. -/
inductive RenderTask
  | real (project_id : String) (user_id : String)
  | mock (project_id : String) (user_id : String)
deriving DecidableEq

/-- The handler's HTTP outcome. -/
inductive RenderResponse
  | notFound
  | alreadyProcessing
  | accepted (message : String) (project_id : String) (st : ProjectStatus)
      (estimated : String)
deriving DecidableEq

/-- What `render_project` leaves behind: the response, the persisted record
as the handler leaves it, and the scheduled background task (if any). -/
structure HandlerResult where
  response : RenderResponse
  db_after : Option ProjectRecord
  scheduled : Option RenderTask
deriving DecidableEq

/-- `render_project`: 404 when the lookup misses, 400 when the current
status is `processing`; otherwise schedules the background job and returns
a response whose `status` field is the literal `ProjectStatus.PROCESSING`.
It performs no database write itself. -/
def render_project (project_id user : String) (use_real_render : Bool)
    (lookup : Option ProjectRecord) : HandlerResult :=
  match lookup with
  | none => { response := .notFound, db_after := none, scheduled := none }
  | some p =>
    if p.status = .processing then
      { response := .alreadyProcessing, db_after := some p, scheduled := none }
    else
      { response := .accepted
          (if use_real_render then "Real render job started" else "Mock render job started")
          project_id .processing
          (if use_real_render then "2-3 minutes" else "15 seconds"),
        db_after := some p,
        scheduled := some (if use_real_render then RenderTask.real project_id user
                           else RenderTask.mock project_id user) }

/-! ## Public showcase (`get_public_projects`, src/routes/projects.py) -/

/-- `project.pop("user_id", None)`. -/
def stripUser (p : ProjectRecord) : ProjectRecord := { p with user_id := none }

/-- `.sort("created_at", -1)`: descending by `created_at`. -/
def createdDesc (a b : ProjectRecord) : Prop := b.created_at ≤ a.created_at

instance : DecidableRel createdDesc := fun _ _ => Nat.decLe _ _

instance : IsTotal ProjectRecord createdDesc :=
  ⟨fun a b => Nat.le_total b.created_at a.created_at⟩

instance : IsTrans ProjectRecord createdDesc :=
  ⟨fun _ _ _ h1 h2 => Nat.le_trans h2 h1⟩

/-- `get_public_projects`: filter `is_public ∧ status = completed`, sort by
`created_at` descending, `limit(20)`, strip `user_id` from each record. -/
def get_public_projects (db : List ProjectRecord) : List ProjectRecord :=
  ((List.insertionSort createdDesc
      (db.filter (fun p => p.is_public && decide (p.status = ProjectStatus.completed)))).take 20).map
    stripUser

/-! ## Sequences of coordinator operations -/

/-- One operation that can touch a project's render state. -/
inductive CoordinatorOp
  | render (found : Bool) (submitAttempts : Nat → PostAttempt)
      (pollAttempts : Nat → Nat → HeadAttempt) (tS tF : Nat)
  | callback (cb : CallbackData) (t : Nat)

/-- Apply one coordinator operation to the persisted record. -/
def applyOp (project_id : String) (p : ProjectRecord) : CoordinatorOp → ProjectRecord
  | .render found sa pa tS tF =>
      (process_real_render_job project_id found sa pa tS tF p).record
  | .callback cb t => render_callback cb t p

/-- Run a sequence of coordinator operations. -/
def runOps (project_id : String) (p : ProjectRecord) (ops : List CoordinatorOp) :
    ProjectRecord :=
  ops.foldl (applyOp project_id) p

/-! ## Concrete fixtures -/

/-- A freshly created draft project (as `create_project` inserts it). -/
def sampleProject : ProjectRecord :=
  { project_id := "proj_abc123", user_id := some "alice",
    template_id := "tmpl-newspaper",
    parameters := [("headline", .s "X"), ("theme_color", .s "#112233")],
    status := .draft, video_url := none, thumbnail_url := none,
    duration_seconds := none, file_size_mb := none, render_started_at := none,
    render_completed_at := none, created_at := 1, is_public := false }

/-- A submit call whose first attempt is accepted with a job filename. -/
def submitOk : Nat → PostAttempt :=
  fun _ => .accepted { filename := some "job1.mp4", download_url := none, message := none }

/-- A submit call every attempt of which gets a 4xx rejection. -/
def submitRejected : Nat → PostAttempt := fun _ => .rejected 400 "bad"

/-! ## Helper lemmas -/

lemma pollLoop_no_terminal (poll : Nat → CompletionResult) (tF : Nat)
    (p : ProjectRecord) (h : ∀ i, (poll i).completed = false) :
    ∀ (fuel a : Nat), pollLoop poll tF p a fuel =
      { record := setFailed tF p, pollsPerformed := fuel,
        sleepSeconds := fuel * poll_interval }
  | 0, _ => by simp [pollLoop]
  | fuel + 1, a => by
      have ih := pollLoop_no_terminal poll tF p h fuel (a + 1)
      simp [pollLoop, h a, ih, Nat.succ_mul]

lemma pollLoop_record_cases (poll : Nat → CompletionResult) (tF : Nat)
    (p : ProjectRecord) :
    ∀ (fuel a : Nat),
      (pollLoop poll tF p a fuel).record = setFailed tF p ∨
      ∃ i, (poll i).success = true ∧
        (pollLoop poll tF p a fuel).record = setCompletedFromPoll (poll i) tF p
  | 0, _ => Or.inl (by simp [pollLoop])
  | fuel + 1, a => by
      by_cases hc : (poll a).completed
      · by_cases hs : (poll a).success
        · exact Or.inr ⟨a, hs, by simp [pollLoop, hc, hs]⟩
        · exact Or.inl (by simp [pollLoop, hc, hs])
      · have ih := pollLoop_record_cases poll tF p fuel (a + 1)
        simpa [pollLoop, hc] using ih

lemma check_render_completion_not_ready (jid : String) (s : ClientStatus)
    (h : s.status ≠ "ready") :
    (check_render_completion jid s).completed = false := by
  simp [check_render_completion, h]

lemma check_render_completion_success_of_completed (jid : String)
    (s : ClientStatus) (h : (check_render_completion jid s).completed = true) :
    (check_render_completion jid s).success = true := by
  unfold check_render_completion at *
  by_cases hr : s.status = "ready" <;> simp [hr] at h ⊢

/-! ## C7 — the parameter transformer -/

/-- C7: the parameter transformer is pure and total: for every template id
and parameter dict the payload carries exactly the eight keys {text, speed,
font_name, font_size, font_color, bg_color, duration, resolution} (so every
field is set and unmapped inputs are dropped); an unknown template id yields
the documented fallback payload instead of an error; `tmpl-newspaper` with
`{headline: "X", theme_color: "#112233"}` yields text "X", font_color
"#112233", bg_color "#FFFFFF", duration 30.0, resolution "1920x1080"; and
missing inputs take the per-template literal defaults. -/
theorem transform_parameters_total_payload :
    (transform_parameters "tmpl-newspaper"
        [("headline", .s "X"), ("theme_color", .s "#112233")] =
      [("text", .s "X"), ("speed", .n 0.1), ("font_name", .s "Arial"),
       ("font_size", .n 24), ("font_color", .s "#112233"),
       ("bg_color", .s "#FFFFFF"), ("duration", .n 30.0),
       ("resolution", .s "1920x1080")]) ∧
    (∀ tid ps, (transform_parameters tid ps).map Prod.fst = payloadKeys) ∧
    (∀ tid ps, tid ∉ knownTemplateIds →
      transform_parameters tid ps = fallback_payload) ∧
    (transform_parameters "tmpl-newspaper" [] =
      [("text", .s "Breaking News"), ("speed", .n 0.1),
       ("font_name", .s "Arial"), ("font_size", .n 24),
       ("font_color", .s "#FF0000"), ("bg_color", .s "#FFFFFF"),
       ("duration", .n 30.0), ("resolution", .s "1920x1080")]) := by
  refine ⟨rfl, ?_, ?_, rfl⟩
  · intro tid ps
    unfold transform_parameters
    repeat' split
    all_goals rfl
  · intro tid ps h
    simp only [knownTemplateIds, List.mem_cons, List.not_mem_nil, or_false,
      not_or] at h
    obtain ⟨h1, h2, h3, h4, h5⟩ := h
    unfold transform_parameters
    rw [if_neg h1, if_neg h2, if_neg h3, if_neg h4, if_neg h5]
    rfl

/-- C7 witness: the unknown-template conjunct evaluated at a concrete
unknown id. -/
theorem transform_parameters_total_payload_witness :
    transform_parameters "tmpl-unknown-xyz" [("headline", .s "H")] =
      fallback_payload :=
  transform_parameters_total_payload.2.2.1 "tmpl-unknown-xyz"
    [("headline", .s "H")] (by decide)

/-! ## C4 — render client retry policy -/

/-- C4 counterexample: an explicit 4xx from the render engine IS retried —
with every attempt answered `422`, `_make_request` consumes all 3 attempts
and sleeps twice, and the error it finally surfaces is a generic
`Exception`, not an immediate first-attempt rejection. -/
theorem rejected_4xx_is_retried :
    (make_request_post (fun _ => PostAttempt.rejected 422 "bad params")).attemptsUsed = 3 ∧
    (make_request_post (fun _ => PostAttempt.rejected 422 "bad params")).attemptsUsed ≠ 1 ∧
    (make_request_post (fun _ => PostAttempt.rejected 422 "bad params")).totalDelay = 2 * retry_delay ∧
    (make_request_post (fun _ => PostAttempt.rejected 422 "bad params")).result =
      .error "Render engine error 422: bad params" :=
  ⟨by decide, by decide, by decide, rfl⟩

/-- C4 (amended): every logical call is retried up to 3 attempts with a
fixed 5-second delay between attempts, uniformly for submit (POST) and
status checks (HEAD), on transport failures AND on explicit 4xx rejections
alike: a 4xx raises a generic exception that the retry loop catches, so it
is surfaced (as a generic error message) only after the final attempt
receives it, not immediately on the first. -/
theorem make_request_retry_policy :
    max_retries = 3 ∧ retry_delay = 5 ∧
    (∀ att, (∀ i, att i = PostAttempt.transportTimeout) →
      make_request_post att =
        { result := .error "Render engine request timeout after all retries",
          attemptsUsed := 3, totalDelay := 10 }) ∧
    (∀ code body att, (∀ i, att i = PostAttempt.rejected code body) →
      make_request_post att =
        { result := .error ("Render engine error " ++ toString code ++ ": " ++ body),
          attemptsUsed := 3, totalDelay := 10 }) ∧
    (∀ resp att, att 0 = PostAttempt.accepted resp →
      make_request_post att =
        { result := .ok (some resp), attemptsUsed := 1, totalDelay := 0 }) ∧
    (∀ att, (∀ i, att i = HeadAttempt.transportTimeout) →
      make_request_head att =
        { result := .error "Render engine request timeout after all retries",
          attemptsUsed := 3, totalDelay := 10 }) ∧
    (∀ code att, (∀ i, att i = HeadAttempt.badStatus code) →
      make_request_head att =
        { result := .error ("Render engine status check failed with status " ++ toString code),
          attemptsUsed := 3, totalDelay := 10 }) := by
  refine ⟨rfl, rfl, ?_, ?_, ?_, ?_, ?_⟩
  · intro att h
    have : att = fun _ => PostAttempt.transportTimeout := funext h
    subst this
    rfl
  · intro code body att h
    have : att = fun _ => PostAttempt.rejected code body := funext h
    subst this
    rfl
  · intro resp att h
    show makeRequestPostAux att 0 max_retries = _
    unfold makeRequestPostAux max_retries
    rw [h]
  · intro att h
    have : att = fun _ => HeadAttempt.transportTimeout := funext h
    subst this
    rfl
  · intro code att h
    have : att = fun _ => HeadAttempt.badStatus code := funext h
    subst this
    rfl

/-- C4 witness: the amended retry policy evaluated at concrete attempt
sequences. -/
theorem make_request_retry_policy_witness :
    make_request_post (fun _ => PostAttempt.transportTimeout) =
      { result := .error "Render engine request timeout after all retries",
        attemptsUsed := 3, totalDelay := 10 } ∧
    make_request_post submitRejected =
      { result := .error ("Render engine error " ++ toString 400 ++ ": " ++ "bad"),
        attemptsUsed := 3, totalDelay := 10 } ∧
    make_request_post submitOk =
      { result := .ok (some { filename := some "job1.mp4", download_url := none,
                              message := none }),
        attemptsUsed := 1, totalDelay := 0 } :=
  ⟨make_request_retry_policy.2.2.1 _ (fun _ => rfl),
   make_request_retry_policy.2.2.2.1 400 "bad" _ (fun _ => rfl),
   make_request_retry_policy.2.2.2.2.1 _ _ rfl⟩

/-! ## C3 — poll-timeout policy -/

lemma process_timeout_of_no_ready (project_id : String)
    (sa : Nat → PostAttempt) (pa : Nat → Nat → HeadAttempt) (tS tF : Nat)
    (p : ProjectRecord)
    (hsub : (engine_start_render_job project_id p.template_id p.parameters sa).success = true)
    (hpoll : ∀ i, (check_render_status (make_request_head (pa i)).result).status ≠ "ready") :
    process_real_render_job project_id true sa pa tS tF p =
      { record := setFailed tF (setProcessing tS p),
        pollsPerformed := max_polls,
        sleepSeconds := max_polls * poll_interval } := by
  have hb : renderJobBody project_id true sa pa tS tF p =
      .ok (pollLoop
        (fun i => engine_check_render_completion
          ((engine_start_render_job project_id p.template_id p.parameters sa).render_job_id.getD "")
          (pa i))
        tF (setProcessing tS p) 0 max_polls) := by
    simp [renderJobBody, hsub]
  unfold process_real_render_job
  rw [hb]
  exact pollLoop_no_terminal _ _ _
    (fun i => check_render_completion_not_ready _ _ (hpoll i)) max_polls 0

/-- C3: when no poll ever reports a terminal state (the engine answers
pending/not-found or is unreachable on every check), the coordinator
performs exactly `max_polls = 60` completion checks at the fixed
`poll_interval = 10` seconds (600 seconds slept in total) and then writes
the timeout transition: the record that entered `processing` ends `failed`
with `render_completed_at` set. -/
theorem poll_timeout_after_sixty_attempts (project_id : String)
    (sa : Nat → PostAttempt) (pa : Nat → Nat → HeadAttempt) (tS tF : Nat)
    (p : ProjectRecord)
    (hsub : (engine_start_render_job project_id p.template_id p.parameters sa).success = true)
    (hpoll : ∀ i, (check_render_status (make_request_head (pa i)).result).status ≠ "ready") :
    process_real_render_job project_id true sa pa tS tF p =
      { record := setFailed tF (setProcessing tS p),
        pollsPerformed := max_polls,
        sleepSeconds := max_polls * poll_interval } ∧
    max_polls = 60 ∧ poll_interval = 10 ∧
    (setProcessing tS p).status = .processing ∧
    (setFailed tF (setProcessing tS p)).status = .failed ∧
    (setFailed tF (setProcessing tS p)).render_completed_at = some tF :=
  ⟨process_timeout_of_no_ready project_id sa pa tS tF p hsub hpoll,
   rfl, rfl, rfl, rfl, rfl⟩

lemma head404_not_ready :
    (check_render_status
      (make_request_head (fun _ => HeadAttempt.status404)).result).status ≠ "ready" := by
  decide

/-- C3 witness: a concrete draft project, an accepted submit, and an engine
that answers 404 to every completion check. -/
theorem poll_timeout_after_sixty_attempts_witness :
    process_real_render_job "proj_abc123" true submitOk
        (fun _ _ => HeadAttempt.status404) 2 3 sampleProject =
      { record := setFailed 3 (setProcessing 2 sampleProject),
        pollsPerformed := max_polls,
        sleepSeconds := max_polls * poll_interval } ∧
    max_polls = 60 ∧ poll_interval = 10 ∧
    (setProcessing 2 sampleProject).status = .processing ∧
    (setFailed 3 (setProcessing 2 sampleProject)).status = .failed ∧
    (setFailed 3 (setProcessing 2 sampleProject)).render_completed_at = some 3 :=
  poll_timeout_after_sixty_attempts "proj_abc123" submitOk
    (fun _ _ => HeadAttempt.status404) 2 3 sampleProject (by decide)
    (fun _ => head404_not_ready)

/-! ## C6 — submit failure and top-level exception handling -/

/-- C6: when the submit step fails (the render client raises, so
`RenderEngine.start_render_job` reports `success = False`), the coordinator
immediately writes `failed` with `render_completed_at` set and performs
zero completion checks; and every failure raised inside the background
sequence (`renderJobBody` resolving to `.error`) is caught by the top-level
handler of `process_real_render_job` and converted into a terminal `failed`
write on the record as it stood at the raise point, rather than
propagating. -/
theorem submit_failure_immediate_failed (project_id : String)
    (sa : Nat → PostAttempt) (pa : Nat → Nat → HeadAttempt) (tS tF : Nat)
    (p : ProjectRecord) :
    ((engine_start_render_job project_id p.template_id p.parameters sa).success = false →
      process_real_render_job project_id true sa pa tS tF p =
        { record := setFailed tF (setProcessing tS p),
          pollsPerformed := 0, sleepSeconds := 0 }) ∧
    (∀ e, (make_request_post sa).result = .error e →
      (engine_start_render_job project_id p.template_id p.parameters sa).success = false) ∧
    (∀ found s msg,
      renderJobBody project_id found sa pa tS tF p = .error (s, msg) →
      process_real_render_job project_id found sa pa tS tF p =
        { record := setFailed tF s, pollsPerformed := 0, sleepSeconds := 0 }) ∧
    (setFailed tF (setProcessing tS p)).status = .failed ∧
    (setFailed tF (setProcessing tS p)).render_completed_at = some tF := by
  refine ⟨?_, ?_, ?_, rfl, rfl⟩
  · intro hsub
    have hb : renderJobBody project_id true sa pa tS tF p =
        .ok { record := setFailed tF (setProcessing tS p),
              pollsPerformed := 0, sleepSeconds := 0 } := by
      simp [renderJobBody, hsub]
    unfold process_real_render_job
    rw [hb]
  · intro e he
    unfold engine_start_render_job client_start_render_job
    rw [he]
  · intro found s msg hb
    unfold process_real_render_job
    rw [hb]

/-- C6 witness: a submit rejected with a 4xx on every attempt fails the
project at once with zero polls; and a missing project (the body raising
"Project not found") is caught and converted to a `failed` write. -/
theorem submit_failure_immediate_failed_witness :
    process_real_render_job "proj_abc123" true submitRejected
        (fun _ _ => HeadAttempt.status200) 2 3 sampleProject =
      { record := setFailed 3 (setProcessing 2 sampleProject),
        pollsPerformed := 0, sleepSeconds := 0 } ∧
    process_real_render_job "proj_abc123" false submitOk
        (fun _ _ => HeadAttempt.status200) 2 3 sampleProject =
      { record := setFailed 3 (setProcessing 2 sampleProject),
        pollsPerformed := 0, sleepSeconds := 0 } :=
  ⟨(submit_failure_immediate_failed "proj_abc123" submitRejected
      (fun _ _ => HeadAttempt.status200) 2 3 sampleProject).1 (by decide),
   (submit_failure_immediate_failed "proj_abc123" submitOk
      (fun _ _ => HeadAttempt.status200) 2 3 sampleProject).2.2.1 false
      (setProcessing 2 sampleProject) "Project not found" (by rfl)⟩

/-! ## C8 — poll-side errors never terminate the loop early -/

/-- C8: when the render client raises after exhausting its retries,
`check_render_status` catches the exception and returns an `"error"` status
dict, which `check_render_completion` maps to `completed = false`, so the
coordinator keeps polling toward the 60-attempt ceiling; the
`completed = true, success = false` exception branch of
`check_render_completion` is unreachable — a completed check is always a
successful one — so a poll-side transport error alone never terminates the
loop early. -/
theorem poll_error_never_terminates_early :
    (∀ e, check_render_status (.error e) =
      { status := "error", message := some e }) ∧
    (∀ e jid,
      (check_render_completion jid (check_render_status (.error e))).completed = false) ∧
    (∀ jid s, (check_render_completion jid s).completed = true →
      (check_render_completion jid s).success = true) ∧
    (∀ project_id sa (es : Nat → String) (pa : Nat → Nat → HeadAttempt) tS tF
        (p : ProjectRecord),
      (engine_start_render_job project_id p.template_id p.parameters sa).success = true →
      (∀ i, (make_request_head (pa i)).result = .error (es i)) →
      (process_real_render_job project_id true sa pa tS tF p).pollsPerformed = max_polls ∧
      (process_real_render_job project_id true sa pa tS tF p).record.status = .failed) := by
  refine ⟨fun _ => rfl, ?_, ?_, ?_⟩
  · intro e jid
    exact check_render_completion_not_ready _ _ (by simp [check_render_status])
  · intro jid s
    exact check_render_completion_success_of_completed jid s
  · intro project_id sa es pa tS tF p hsub herr
    have hpoll : ∀ i,
        (check_render_status (make_request_head (pa i)).result).status ≠ "ready" := by
      intro i
      rw [herr i]
      simp [check_render_status]
    have h := process_timeout_of_no_ready project_id sa pa tS tF p hsub hpoll
    rw [h]
    exact ⟨rfl, rfl⟩

/-- C8 witness: a poll whose every client attempt times out (the client
raises after its retries) yields a non-terminal check, and a full run of
such polls reaches the 60-attempt ceiling and fails. -/
theorem poll_error_never_terminates_early_witness :
    (check_render_completion "job1.mp4"
      (check_render_status (.error "boom"))).completed = false ∧
    (check_render_completion "job1.mp4"
      { status := "ready", message := none }).success = true ∧
    (process_real_render_job "proj_abc123" true submitOk
      (fun _ _ => HeadAttempt.transportTimeout) 2 3 sampleProject).pollsPerformed = max_polls ∧
    (process_real_render_job "proj_abc123" true submitOk
      (fun _ _ => HeadAttempt.transportTimeout) 2 3 sampleProject).record.status = .failed :=
  ⟨poll_error_never_terminates_early.2.1 "boom" "job1.mp4",
   poll_error_never_terminates_early.2.2.1 "job1.mp4"
     { status := "ready", message := none } (by decide),
   (poll_error_never_terminates_early.2.2.2 "proj_abc123" submitOk
     (fun _ => "Render engine request timeout after all retries")
     (fun _ _ => HeadAttempt.transportTimeout) 2 3 sampleProject (by decide)
     (fun _ => rfl)).1,
   (poll_error_never_terminates_early.2.2.2 "proj_abc123" submitOk
     (fun _ => "Render engine request timeout after all retries")
     (fun _ _ => HeadAttempt.transportTimeout) 2 3 sampleProject (by decide)
     (fun _ => rfl)).2⟩

/-! ## C1 — late callbacks on terminal projects -/

/-- A project already resolved as completed, with its result payload. -/
def completedProject : ProjectRecord :=
  { project_id := "proj_abc123", user_id := some "alice",
    template_id := "tmpl-newspaper",
    parameters := [("headline", .s "X")],
    status := .completed,
    video_url := some "http://localhost:8001/videos/job1.mp4",
    thumbnail_url := some "http://localhost:8001/videos/job1.jpg",
    duration_seconds := none, file_size_mb := none,
    render_started_at := some 2, render_completed_at := some 3,
    created_at := 1, is_public := true }

/-- A project already resolved as failed. -/
def failedProject : ProjectRecord :=
  { completedProject with status := .failed, video_url := none,
                          thumbnail_url := none }

/-- C1 counterexample: `render_callback` checks nothing before writing — a
late failure callback on an already-`completed` project flips it to
`failed` (and stamps a new `render_completed_at`), and a late success
callback on an already-`failed` project flips it to `completed`; neither is
a no-op. -/
theorem late_callback_overwrites_terminal_project :
    completedProject.status = .completed ∧
    (render_callback
      { success := false, video_url := none, thumbnail_url := none,
        duration_seconds := none, file_size_mb := none } 9
      completedProject).status = .failed ∧
    (render_callback
      { success := false, video_url := none, thumbnail_url := none,
        duration_seconds := none, file_size_mb := none } 9
      completedProject).render_completed_at = some 9 ∧
    failedProject.status = .failed ∧
    (render_callback
      { success := true, video_url := some "http://other/late.mp4",
        thumbnail_url := none, duration_seconds := none, file_size_mb := none } 9
      failedProject).status = .completed :=
  ⟨by decide, by decide, by decide, by decide, by decide⟩

/-- C1 (amended): `render_callback` never reads the current status before
writing, so a late callback on a terminal project is NOT a no-op: for every
project — whatever its current status — a failure callback sets status
`failed` and a success callback sets status `completed`, and
`render_completed_at` is restamped each time. -/
theorem render_callback_unconditional (cb : CallbackData) (t : Nat)
    (p : ProjectRecord) :
    (p.status = .completed → cb.success = false →
      (render_callback cb t p).status = .failed) ∧
    (p.status = .failed → cb.success = true →
      (render_callback cb t p).status = .completed) ∧
    (render_callback cb t p).render_completed_at = some t ∧
    (render_callback cb t p).status =
      (if cb.success then ProjectStatus.completed else ProjectStatus.failed) := by
  refine ⟨fun _ hs => ?_, fun _ hs => ?_, ?_, ?_⟩ <;>
    cases h : cb.success <;>
      simp_all [render_callback, setFailed]

/-- C1 amended-claim witness at concrete terminal projects. -/
theorem render_callback_unconditional_witness :
    (completedProject.status = .completed → (false : Bool) = false →
      (render_callback
        { success := false, video_url := none, thumbnail_url := none,
          duration_seconds := none, file_size_mb := none } 9
        completedProject).status = .failed) ∧
    (render_callback
      { success := false, video_url := none, thumbnail_url := none,
        duration_seconds := none, file_size_mb := none } 9
      completedProject).render_completed_at = some 9 :=
  ⟨fun h hs =>
    (render_callback_unconditional
      { success := false, video_url := none, thumbnail_url := none,
        duration_seconds := none, file_size_mb := none } 9 completedProject).1 h hs,
   (render_callback_unconditional
      { success := false, video_url := none, thumbnail_url := none,
        duration_seconds := none, file_size_mb := none } 9 completedProject).2.2.1⟩

/-! ## C2 — the render_completed_at / video_url invariant -/

/-- The invariant claimed in the spec's data-model section. -/
def renderStateInv (q : ProjectRecord) : Prop :=
  (q.render_completed_at ≠ none ↔
    (q.status = .completed ∨ q.status = .failed)) ∧
  (q.video_url ≠ none → q.status = .completed)

/-- C2 counterexample: re-submitting a render on a previously completed
project violates the invariant — after a completed render followed by a
re-render whose submit fails, the project is `failed` while `video_url` is
still non-null; and mid-way through the re-render (right after the
coordinator's `processing` write) the status is `processing` while
`render_completed_at` is still set. -/
theorem resubmission_breaks_state_invariant :
    (runOps "proj_abc123" sampleProject
      [.render true submitOk (fun _ _ => HeadAttempt.status200) 2 3,
       .render true submitRejected (fun _ _ => HeadAttempt.status200) 4 5]).status
      = .failed ∧
    (runOps "proj_abc123" sampleProject
      [.render true submitOk (fun _ _ => HeadAttempt.status200) 2 3,
       .render true submitRejected (fun _ _ => HeadAttempt.status200) 4 5]).video_url
      = some "http://localhost:8001/videos/job1.mp4" ∧
    (setProcessing 4
      (runOps "proj_abc123" sampleProject
        [.render true submitOk (fun _ _ => HeadAttempt.status200) 2 3])).status
      = .processing ∧
    (setProcessing 4
      (runOps "proj_abc123" sampleProject
        [.render true submitOk (fun _ _ => HeadAttempt.status200) 2 3])).render_completed_at
      = some 3 :=
  ⟨by decide, by rfl, by decide, by decide⟩

/-- C2 (amended): the invariant — `render_completed_at` set iff status is
terminal, `video_url` non-null only when `completed` — holds for a fresh
draft project before, during (after the `processing` write) and after one
full render sequence; but the coordinator never clears stale result fields,
so it does not survive re-submission after a terminal state (see the
counterexample). -/
theorem first_render_state_invariant (project_id : String) (found : Bool)
    (sa : Nat → PostAttempt) (pa : Nat → Nat → HeadAttempt) (tS tF : Nat)
    (p : ProjectRecord) (hd : p.status = .draft)
    (hc : p.render_completed_at = none) (hv : p.video_url = none) :
    renderStateInv p ∧
    renderStateInv (setProcessing tS p) ∧
    renderStateInv (process_real_render_job project_id found sa pa tS tF p).record := by
  refine ⟨⟨?_, ?_⟩, ⟨?_, ?_⟩, ?_⟩
  · simp [hc, hd]
  · simp [hv]
  · simp [setProcessing, hc]
  · simp [setProcessing, hv]
  · have hcases :
        (process_real_render_job project_id found sa pa tS tF p).record =
          setFailed tF (setProcessing tS p) ∨
        ∃ r : CompletionResult, (process_real_render_job project_id found sa pa tS tF p).record =
          setCompletedFromPoll r tF (setProcessing tS p) := by
      unfold process_real_render_job renderJobBody
      cases found with
      | false => simp
      | true =>
        by_cases hs : (engine_start_render_job project_id p.template_id p.parameters sa).success
        · simp only [hs, if_true, if_pos]
          rcases pollLoop_record_cases
              (fun i => engine_check_render_completion
                ((engine_start_render_job project_id p.template_id p.parameters sa).render_job_id.getD "")
                (pa i)) tF (setProcessing tS p) max_polls 0 with h | ⟨i, _, h⟩
          · exact Or.inl (by simpa using h)
          · exact Or.inr ⟨_, by simpa using h⟩
        · simp [hs]
    rcases hcases with h | ⟨r, h⟩ <;> rw [h]
    · exact ⟨by simp [setFailed, setProcessing], by simp [setFailed, setProcessing, hv]⟩
    · exact ⟨by simp [setCompletedFromPoll, setProcessing], by simp [setCompletedFromPoll]⟩

/-- C2 amended-claim witness: the invariant evaluated on a concrete first
render of a fresh draft project. -/
theorem first_render_state_invariant_witness :
    renderStateInv sampleProject ∧
    renderStateInv (setProcessing 2 sampleProject) ∧
    renderStateInv (process_real_render_job "proj_abc123" true submitOk
      (fun _ _ => HeadAttempt.status200) 2 3 sampleProject).record :=
  first_render_state_invariant "proj_abc123" true submitOk
    (fun _ _ => HeadAttempt.status200) 2 3 sampleProject (by decide) (by decide)
    (by decide)

/-! ## C5 — starting a render on a processing project -/

/-- C5: a start-render request on a project whose status is `processing`
yields the already-processing rejection — an outcome distinct from
not-found — schedules no background task and leaves the record exactly as
it was (in particular `render_started_at` is untouched); a missing project
yields not-found; and a project in any other status (draft, completed,
failed) is accepted and a background render task is scheduled. -/
theorem already_processing_rejection (project_id user : String)
    (use_real : Bool) (p : ProjectRecord) :
    (p.status = .processing →
      render_project project_id user use_real (some p) =
        { response := .alreadyProcessing, db_after := some p, scheduled := none }) ∧
    (RenderResponse.alreadyProcessing ≠ RenderResponse.notFound) ∧
    (render_project project_id user use_real none =
      { response := .notFound, db_after := none, scheduled := none }) ∧
    (p.status ≠ .processing →
      (render_project project_id user use_real (some p)).db_after = some p ∧
      (render_project project_id user use_real (some p)).scheduled =
        some (if use_real then RenderTask.real project_id user
              else RenderTask.mock project_id user)) := by
  refine ⟨fun h => ?_, by simp, rfl, fun h => ?_⟩
  · simp [render_project, h]
  · simp [render_project, h]

/-- `sampleProject` while a render is in flight. -/
def processingProject : ProjectRecord :=
  { sampleProject with status := .processing, render_started_at := some 2 }

/-- C5 witness: a concrete processing project is rejected untouched; the
same project as draft is accepted. -/
theorem already_processing_rejection_witness :
    render_project "proj_abc123" "alice" true (some processingProject) =
      { response := .alreadyProcessing,
        db_after := some processingProject,
        scheduled := none } ∧
    (render_project "proj_abc123" "alice" true (some sampleProject)).scheduled =
      some (RenderTask.real "proj_abc123" "alice") :=
  ⟨(already_processing_rejection "proj_abc123" "alice" true
      processingProject).1 (by decide),
   by
    have h := (already_processing_rejection "proj_abc123" "alice" true
      sampleProject).2.2.2 (by decide)
    simpa using h.2⟩

/-! ## C9 — the handler writes nothing but reports `processing` -/

/-- C9: for every accepted start-render request the handler itself performs
no write — the record it leaves in the database is exactly the record it
found — while its response always carries status `processing`; the
`processing` status and `render_started_at` are written only by the
scheduled background task's first step (`setProcessing`).  Hence at
response time the persisted status (draft, completed or failed) differs
from the status the response reports. -/
theorem render_handler_no_write_reports_processing (project_id user : String)
    (use_real : Bool) (p : ProjectRecord) (t : Nat)
    (h : p.status ≠ .processing) :
    (render_project project_id user use_real (some p)).db_after = some p ∧
    (render_project project_id user use_real (some p)).response =
      .accepted
        (if use_real then "Real render job started" else "Mock render job started")
        project_id .processing
        (if use_real then "2-3 minutes" else "15 seconds") ∧
    ((render_project project_id user use_real (some p)).db_after.map
      (fun q => q.status)) = some p.status ∧
    p.status ≠ ProjectStatus.processing ∧
    (setProcessing t p).status = .processing ∧
    (setProcessing t p).render_started_at = some t := by
  refine ⟨?_, ?_, ?_, h, rfl, rfl⟩ <;> simp [render_project, h]

/-- C9 witness: a draft project is accepted; the persisted record still
says `draft` while the response says `processing`. -/
theorem render_handler_no_write_reports_processing_witness :
    (render_project "proj_abc123" "alice" true (some sampleProject)).db_after
      = some sampleProject ∧
    (render_project "proj_abc123" "alice" true (some sampleProject)).response =
      .accepted "Real render job started" "proj_abc123" .processing "2-3 minutes" ∧
    ((render_project "proj_abc123" "alice" true (some sampleProject)).db_after.map
      (fun q => q.status)) = some sampleProject.status ∧
    sampleProject.status ≠ ProjectStatus.processing ∧
    (setProcessing 2 sampleProject).status = .processing ∧
    (setProcessing 2 sampleProject).render_started_at = some 2 := by
  have h := render_handler_no_write_reports_processing "proj_abc123" "alice"
    true sampleProject 2 (by decide)
  simpa using h

/-! ## C10 — the public showcase query -/

/-- C10: every record the showcase returns is public and completed and has
its `user_id` removed; at most 20 records are returned; and the returned
list is ordered by `created_at` descending. -/
theorem public_showcase_query (db : List ProjectRecord) (q : ProjectRecord)
    (hq : q ∈ get_public_projects db) :
    (q.is_public = true ∧ q.status = .completed ∧ q.user_id = none) ∧
    (get_public_projects db).length ≤ 20 ∧
    List.Sorted createdDesc (get_public_projects db) := by
  refine ⟨?_, ?_, ?_⟩
  · unfold get_public_projects at hq
    obtain ⟨q', hq', rfl⟩ := List.mem_map.mp hq
    have h2 := List.take_subset 20 _ hq'
    have h3 := (List.perm_insertionSort createdDesc _).subset h2
    have h4 := List.of_mem_filter h3
    simp only [Bool.and_eq_true, decide_eq_true_eq] at h4
    exact ⟨h4.1, h4.2, rfl⟩
  · unfold get_public_projects
    rw [List.length_map]
    exact List.length_take_le 20 _
  · unfold get_public_projects
    have hs : List.Sorted createdDesc
        (List.insertionSort createdDesc
          (db.filter (fun p => p.is_public && decide (p.status = ProjectStatus.completed)))) :=
      List.sorted_insertionSort createdDesc _
    have ht : List.Sorted createdDesc
        ((List.insertionSort createdDesc
          (db.filter (fun p => p.is_public && decide (p.status = ProjectStatus.completed)))).take 20) :=
      List.Pairwise.sublist (List.take_sublist 20 _) hs
    exact List.Pairwise.map stripUser (fun _ _ h => h) ht

/-- C10 witness: a concrete database holding one public completed project,
one private completed project and one public draft project. -/
theorem public_showcase_query_witness :
    ((stripUser completedProject).is_public = true ∧
      (stripUser completedProject).status = .completed ∧
      (stripUser completedProject).user_id = none) ∧
    (get_public_projects [completedProject, sampleProject, failedProject]).length ≤ 20 ∧
    List.Sorted createdDesc
      (get_public_projects [completedProject, sampleProject, failedProject]) :=
  public_showcase_query [completedProject, sampleProject, failedProject]
    (stripUser completedProject) (by decide)

end VideoGen
